import Mathlib

/-!
Shallow embedding of the daemonization module `daedalus/process/daemon.py`
and proofs about its specified behaviour.

Python exceptions are modelled by `PyErr`, Python values that may be passed
as stream arguments by `PyValue`, and the OS environment (which system calls
succeed, what `getpid` returns, ...) by explicit records.  Functions that may
raise return `Except PyErr`; functions that may call `sys.exit` return an
`Outcome`.
-/

/-- Python exceptions that the daemon module raises, catches or propagates.
`daemonError` is the module's own `DaemonError` (the spec's `StreamError` /
`EnvironmentError`); `valueError` is what `resource.getrlimit` raises on an
unsupported platform (the spec's `LimitUnsupportedError`). -/
inductive PyErr where
  | valueError
  | typeError
  | fileNotFoundError
  | permissionError
  | osError (msg : String)
  | daemonError (msg : String)
deriving DecidableEq, Repr

/-- Behaviour of an object's `fileno()` method: it either returns a
descriptor number or raises some exception. -/
inductive FilenoSpec where
  | returns (n : Int)
  | raises (e : PyErr)
deriving DecidableEq, Repr

/-- A Python value that may be handed to `get_file_descriptor` /
`convert_fileobj`: `None`, a string, an `int`, a stream-like object (an
object exposing `fileno()`, with the given behaviour), or any other object
without a `fileno` attribute. -/
inductive PyValue where
  | none
  | str (s : String)
  | int (n : Int)
  | stream (f : FilenoSpec)
  | other
deriving DecidableEq, Repr

/-- `get_file_descriptor` (the spec's `resolve_descriptor`), translated from
the source: if the object has a `fileno` attribute, call it, turning a
`ValueError` into `None` (any other exception propagates); else if it is an
`int`, return it; otherwise return `None`. -/
def get_file_descriptor (obj : PyValue) : Except PyErr (Option Int) :=
  match obj with
  | .stream f =>
      match f with
      | .returns n => .ok (some n)
      | .raises .valueError => .ok Option.none
      | .raises e => .error e
  | .int n => .ok (some n)
  | _ => .ok Option.none

/-- An input whose `fileno()` capability, if present, raises at most
`ValueError` (as genuine file-like objects do). -/
def filenoBenign : PyValue → Prop
  | .stream (.raises e) => e = PyErr.valueError
  | _ => True

instance : DecidablePred filenoBenign := by
  intro v
  unfold filenoBenign
  match v with
  | .stream (.raises e) => exact inferInstanceAs (Decidable (e = PyErr.valueError))
  | .none => exact inferInstanceAs (Decidable True)
  | .str _ => exact inferInstanceAs (Decidable True)
  | .int _ => exact inferInstanceAs (Decidable True)
  | .stream (.returns _) => exact inferInstanceAs (Decidable True)
  | .other => exact inferInstanceAs (Decidable True)

/-- C5 counterexample: an object whose `fileno` capability raises something
other than `ValueError` (e.g. a non-callable `fileno` attribute raising
`TypeError`) makes `get_file_descriptor` raise: it is not total. -/
theorem get_file_descriptor_raises_on_typeError :
    get_file_descriptor (PyValue.stream (FilenoSpec.raises PyErr.typeError)) =
      Except.error PyErr.typeError := rfl

/-- C5 (amended): `get_file_descriptor` never raises on any input whose
`fileno` capability (if present) raises at most `ValueError`; it returns
`None` for strings, the `fileno()` result for stream-like objects and
`None` when their `fileno` raises `ValueError`, the value itself for
integer input, and `None` for any other input; and for a `fileno` raising
any exception other than `ValueError` it propagates exactly that
exception, since only `ValueError` is caught. -/
theorem get_file_descriptor_amended_spec :
    (∀ obj, filenoBenign obj → ∃ r, get_file_descriptor obj = Except.ok r) ∧
    (∀ s, get_file_descriptor (PyValue.str s) = Except.ok Option.none) ∧
    (∀ n, get_file_descriptor (PyValue.int n) = Except.ok (some n)) ∧
    (∀ n, get_file_descriptor (PyValue.stream (FilenoSpec.returns n)) =
      Except.ok (some n)) ∧
    (get_file_descriptor (PyValue.stream (FilenoSpec.raises PyErr.valueError)) =
      Except.ok Option.none) ∧
    (get_file_descriptor PyValue.none = Except.ok Option.none) ∧
    (get_file_descriptor PyValue.other = Except.ok Option.none) ∧
    (∀ e, e ≠ PyErr.valueError →
      get_file_descriptor (PyValue.stream (FilenoSpec.raises e)) = Except.error e) := by
  refine ⟨?_, fun s => rfl, fun n => rfl, fun n => rfl, rfl, rfl, rfl, ?_⟩
  · intro obj h
    unfold filenoBenign at h
    match obj with
    | .none => exact ⟨Option.none, rfl⟩
    | .str s => exact ⟨Option.none, rfl⟩
    | .int n => exact ⟨some n, rfl⟩
    | .stream (.returns n) => exact ⟨some n, rfl⟩
    | .stream (.raises e) => subst h; exact ⟨Option.none, rfl⟩
    | .other => exact ⟨Option.none, rfl⟩
  · intro e he
    cases e with
    | valueError => exact absurd rfl he
    | typeError => rfl
    | fileNotFoundError => rfl
    | permissionError => rfl
    | osError m => rfl
    | daemonError m => rfl

/-- Witness for C5 (amended) at concrete inputs: a `ValueError`-raising
`fileno` yields `None` without raising, and an `OSError`-raising `fileno`
propagates exactly that `OSError`. -/
theorem get_file_descriptor_amended_spec_witness :
    (∃ r, get_file_descriptor (PyValue.stream (FilenoSpec.raises PyErr.valueError)) =
      Except.ok r) ∧
    get_file_descriptor (PyValue.stream (FilenoSpec.raises (PyErr.osError "EBADF"))) =
      Except.error (PyErr.osError "EBADF") :=
  ⟨get_file_descriptor_amended_spec.1 (PyValue.stream (FilenoSpec.raises PyErr.valueError))
      (by decide),
    get_file_descriptor_amended_spec.2.2.2.2.2.2.2 (PyErr.osError "EBADF") (by decide)⟩

/-- A value returned by `convert_fileobj`: either a file object freshly
created by `open(path, mode)` (identified by a unique allocation id) or the
stream-like argument passed through unchanged. -/
inductive FileObj where
  | opened (id : Nat) (path : String) (mode : String)
  | given (v : PyValue)
deriving DecidableEq, Repr

/-- The filesystem environment seen by `open(path, mode)`: `Option.none`
means the open succeeds, `some e` means it raises the exception `e`. -/
structure OpenEnv where
  openErr : String → String → Option PyErr

/-- The body of `convert_fileobj`, translated from the source: `None` or the
string `'/dev/null'` yield `None`; any other string is opened in the given
mode (a fresh file object; a `FileNotFoundError` is turned into
`DaemonError(f'Unable to open {obj}.')`, any other open failure propagates);
an object with a `fileno` attribute is returned unchanged; anything else
yields `None`.  `nextId` is the allocator for fresh file-object identities. -/
def convert_fileobj_body (env : OpenEnv) (obj : PyValue) (mode : String) (nextId : Nat) :
    Except PyErr (Option FileObj) × Nat :=
  match obj with
  | .none => (.ok Option.none, nextId)
  | .str s =>
      if s = "/dev/null" then (.ok Option.none, nextId)
      else
        match env.openErr s mode with
        | Option.none => (.ok (some (.opened nextId s mode)), nextId + 1)
        | some PyErr.fileNotFoundError =>
            (.error (.daemonError ("Unable to open " ++ s ++ ".")), nextId)
        | some e => (.error e, nextId)
  | .stream f => (.ok (some (.given (.stream f))), nextId)
  | .int _ => (.ok Option.none, nextId)
  | .other => (.ok Option.none, nextId)

/-- Key of the `functools.lru_cache` on `convert_fileobj`: the positional
argument pair `(obj, mode)`. -/
abbrev CacheKey := PyValue × String

/-- State of the `lru_cache(maxsize=32)` wrapper on `convert_fileobj`:
cached entries in most-recently-used-first order (length at most 32), plus
the allocator for fresh file-object identities. -/
structure CacheState where
  entries : List (CacheKey × Option FileObj)
  nextId : Nat
deriving DecidableEq, Repr

/-- Cache state at interpreter start: empty cache. -/
def CacheState.init : CacheState := ⟨[], 0⟩

/-- Cache lookup: on a hit, return the cached value and the entry list with
that entry moved to most-recently-used position. -/
def lookupMove (es : List (CacheKey × Option FileObj)) (k : CacheKey) :
    Option (Option FileObj × List (CacheKey × Option FileObj)) :=
  match es.find? (fun e => decide (e.1 = k)) with
  | some e => some (e.2, e :: es.eraseP (fun e2 => decide (e2.1 = k)))
  | Option.none => Option.none

/-- `convert_fileobj` as exported by the module: the body wrapped in
`functools.lru_cache(maxsize=32)`.  A hit returns the cached object; a miss
evaluates the body and, on success, inserts the result, evicting the
least-recently-used entry beyond capacity 32.  Exceptions are not cached. -/
def convert_fileobj (env : OpenEnv) (obj : PyValue) (mode : String) (st : CacheState) :
    Except PyErr (Option FileObj) × CacheState :=
  match lookupMove st.entries (obj, mode) with
  | some (v, es) => (.ok v, ⟨es, st.nextId⟩)
  | Option.none =>
      match convert_fileobj_body env obj mode st.nextId with
      | (.ok v, n2) => (.ok v, ⟨(((obj, mode), v) :: st.entries).take 32, n2⟩)
      | (.error e, n2) => (.error e, ⟨st.entries, n2⟩)

/-- Run a sequence of `convert_fileobj` calls, collecting each result. -/
def runConvert (env : OpenEnv) (calls : List (PyValue × String)) (st : CacheState) :
    List (Except PyErr (Option FileObj)) × CacheState :=
  match calls with
  | [] => ([], st)
  | c :: rest =>
      let r := convert_fileobj env c.1 c.2 st
      let rr := runConvert env rest r.2
      (r.1 :: rr.1, rr.2)

/-- An environment in which every `open` succeeds. -/
def envAllOk : OpenEnv := ⟨fun _ _ => Option.none⟩

/-- An environment in which opening the path `"secret"` raises
`PermissionError` (the file exists but is unreadable). -/
def envPermDenied : OpenEnv :=
  ⟨fun s _ => if s = "secret" then some PyErr.permissionError else Option.none⟩

/-- Whether an exception is the module's own stream error (`DaemonError`,
the spec's `StreamError`). -/
def isStreamError : PyErr → Bool
  | .daemonError _ => true
  | _ => false

/-- C6 counterexample: a path that cannot be opened because of a permission
failure makes `convert_fileobj` raise the raw `PermissionError`, which is
not a `StreamError`: only `FileNotFoundError` is converted. -/
theorem convert_fileobj_permission_cex :
    (convert_fileobj envPermDenied (PyValue.str "secret") "r" CacheState.init).1 =
      Except.error PyErr.permissionError ∧
    isStreamError PyErr.permissionError = false := ⟨rfl, rfl⟩

/-- C6 (amended): `convert_fileobj` yields the null marker for `None`, the
null-device path, integers and fileno-less objects (without raising); passes
stream-like objects through unchanged; opens path strings in the given mode;
raises a `StreamError` (`DaemonError`) when the path does not exist; and
propagates any other open failure as the underlying exception. -/
theorem convert_fileobj_body_spec (env : OpenEnv) (obj : PyValue) (mode : String) (n : Nat) :
    (obj = PyValue.none → convert_fileobj_body env obj mode n = (Except.ok Option.none, n)) ∧
    (convert_fileobj_body env (PyValue.str "/dev/null") mode n = (Except.ok Option.none, n)) ∧
    (∀ k, obj = PyValue.int k →
      convert_fileobj_body env obj mode n = (Except.ok Option.none, n)) ∧
    (obj = PyValue.other → convert_fileobj_body env obj mode n = (Except.ok Option.none, n)) ∧
    (∀ f, obj = PyValue.stream f →
      convert_fileobj_body env obj mode n = (Except.ok (some (FileObj.given obj)), n)) ∧
    (∀ s, obj = PyValue.str s → s ≠ "/dev/null" →
      (env.openErr s mode = Option.none →
        convert_fileobj_body env obj mode n = (Except.ok (some (FileObj.opened n s mode)), n + 1)) ∧
      (env.openErr s mode = some PyErr.fileNotFoundError →
        convert_fileobj_body env obj mode n =
          (Except.error (PyErr.daemonError ("Unable to open " ++ s ++ ".")), n)) ∧
      (∀ e, env.openErr s mode = some e → e ≠ PyErr.fileNotFoundError →
        convert_fileobj_body env obj mode n = (Except.error e, n))) := by
  refine ⟨?_, by simp [convert_fileobj_body], ?_, ?_, ?_, ?_⟩
  · rintro rfl; rfl
  · rintro k rfl; rfl
  · rintro rfl; rfl
  · rintro f rfl; rfl
  · rintro s rfl hs
    refine ⟨?_, ?_, ?_⟩
    · intro he; simp [convert_fileobj_body, hs, he]
    · intro he; simp [convert_fileobj_body, hs, he]
    · intro e he hne
      cases e <;> simp_all [convert_fileobj_body, hs, he]

/-- Witness for C6 (amended) at a concrete input: opening a fresh path. -/
theorem convert_fileobj_body_spec_witness :
    PyValue.str "log.txt" = PyValue.str "log.txt" ∧
    convert_fileobj_body envAllOk (PyValue.str "log.txt") "a+" 0 =
      (Except.ok (some (FileObj.opened 0 "log.txt" "a+")), 1) :=
  ⟨rfl, ((convert_fileobj_body_spec envAllOk (PyValue.str "log.txt") "a+" 0).2.2.2.2.2
      "log.txt" rfl (by decide)).1 rfl⟩

/-- The call sequence exhibiting eviction: 33 distinct paths opened in mode
`"r"`, then the first path again. -/
def evictionCalls : List (PyValue × String) :=
  ((List.range 33).map (fun i => (PyValue.str ("f" ++ Nat.repr i), "r"))) ++
    [(PyValue.str "f0", "r")]

/-- C10 counterexample: with 33 distinct argument pairs the first entry is
evicted from the capacity-32 LRU cache, so two successful calls with equal
arguments (`("f0", "r")`, the first and the last call) return two distinct
stream objects, and the same path is opened twice. -/
theorem convert_fileobj_reopens_after_eviction :
    (runConvert envAllOk evictionCalls CacheState.init).1.head? =
      some (Except.ok (some (FileObj.opened 0 "f0" "r"))) ∧
    (runConvert envAllOk evictionCalls CacheState.init).1.getLast? =
      some (Except.ok (some (FileObj.opened 33 "f0" "r"))) ∧
    FileObj.opened 33 "f0" "r" ≠ FileObj.opened 0 "f0" "r" :=
  ⟨rfl, rfl, by decide⟩

/-- After any successful `convert_fileobj` call, the argument pair sits at
the most-recently-used position of the cache with the returned value. -/
theorem convert_fileobj_ok_entries (env : OpenEnv) (obj : PyValue) (mode : String)
    (st : CacheState) (r : Option FileObj) (st2 : CacheState)
    (h : convert_fileobj env obj mode st = (Except.ok r, st2)) :
    ∃ tail, st2.entries = ((obj, mode), r) :: tail := by
  unfold convert_fileobj at h
  cases hl : lookupMove st.entries (obj, mode) with
  | some p =>
      obtain ⟨v, es⟩ := p
      rw [hl] at h
      simp only [Prod.mk.injEq, Except.ok.injEq] at h
      obtain ⟨hv, hst⟩ := h
      unfold lookupMove at hl
      cases hf : st.entries.find? (fun e => decide (e.1 = (obj, mode))) with
      | some e =>
          rw [hf] at hl
          simp only [Option.some.injEq, Prod.mk.injEq] at hl
          have hpe := List.find?_some hf
          have he : e.1 = (obj, mode) := of_decide_eq_true hpe
          refine ⟨st.entries.eraseP (fun e2 => decide (e2.1 = (obj, mode))), ?_⟩
          rw [← hst]
          simp only [← hl.2, ← hl.1, ← hv, ← he]
      | none => rw [hf] at hl; exact absurd hl (by simp)
  | none =>
      rw [hl] at h
      cases hb : convert_fileobj_body env obj mode st.nextId with
      | mk res n2 =>
          cases res with
          | ok v =>
              rw [hb] at h
              simp only [Prod.mk.injEq, Except.ok.injEq] at h
              obtain ⟨hv, hst⟩ := h
              refine ⟨st.entries.take 31, ?_⟩
              rw [← hst, hv]
              show List.take 32 (((obj, mode), r) :: st.entries) = _
              rw [show (32 : Nat) = 31 + 1 from rfl, List.take_succ_cons]
          | error e => rw [hb] at h; exact absurd h (by simp)

/-- Looking up a key that sits at the most-recently-used position hits and
leaves the entry list unchanged. -/
theorem lookupMove_cons_self (k : CacheKey) (v : Option FileObj)
    (es : List (CacheKey × Option FileObj)) :
    lookupMove ((k, v) :: es) k = some (v, (k, v) :: es) := by
  unfold lookupMove
  simp [List.find?_cons, List.eraseP_cons]

/-- C10 (amended): `convert_fileobj` is memoized through an LRU cache of
capacity 32, so a successful call immediately repeated with equal arguments
hits the cache: it returns the identical stream object and performs no new
open (the whole cache state, allocator included, is unchanged). -/
theorem convert_fileobj_repeat_is_cached (env : OpenEnv) (obj : PyValue) (mode : String)
    (st : CacheState) (r : Option FileObj) (st2 : CacheState)
    (h : convert_fileobj env obj mode st = (Except.ok r, st2)) :
    convert_fileobj env obj mode st2 = (Except.ok r, st2) := by
  obtain ⟨tail, ht⟩ := convert_fileobj_ok_entries env obj mode st r st2 h
  unfold convert_fileobj
  rw [ht, lookupMove_cons_self, ← ht]

/-- Witness for C10 (amended): opening a concrete path once, then repeating
the call, yields the identical object and the identical cache state. -/
theorem convert_fileobj_repeat_is_cached_witness :
    convert_fileobj envAllOk (PyValue.str "f0") "r" CacheState.init =
      (Except.ok (some (FileObj.opened 0 "f0" "r")),
        ⟨[((PyValue.str "f0", "r"), some (FileObj.opened 0 "f0" "r"))], 1⟩) ∧
    convert_fileobj envAllOk (PyValue.str "f0") "r"
        ⟨[((PyValue.str "f0", "r"), some (FileObj.opened 0 "f0" "r"))], 1⟩ =
      (Except.ok (some (FileObj.opened 0 "f0" "r")),
        ⟨[((PyValue.str "f0", "r"), some (FileObj.opened 0 "f0" "r"))], 1⟩) :=
  ⟨rfl,
    convert_fileobj_repeat_is_cached envAllOk (PyValue.str "f0") "r" CacheState.init
      (some (FileObj.opened 0 "f0" "r"))
      ⟨[((PyValue.str "f0", "r"), some (FileObj.opened 0 "f0" "r"))], 1⟩ rfl⟩

/-- The process's descriptor table: the descriptors currently open (as
reported by `psutil.Process().open_files()`). -/
structure FdTable where
  openFds : List Int
deriving DecidableEq, Repr

/-- `os.close(fd)`: closes an open descriptor; raises `OSError` when the
descriptor is not open. -/
def osClose (t : FdTable) (fd : Int) : Except PyErr FdTable :=
  if fd ∈ t.openFds then .ok ⟨t.openFds.erase fd⟩ else .error (.osError "EBADF")

/-- Using a descriptor (a read, write or dup on it): succeeds exactly when
the descriptor is open. -/
def osUseFd (t : FdTable) (fd : Int) : Except PyErr Unit :=
  if fd ∈ t.openFds then .ok () else .error (.osError "EBADF")

/-- The `for descriptor in descriptor_list` loop of `close_all_open_files`:
each descriptor not in the exclusion list is closed, and an `OSError` from
an individual close is swallowed (`except OSError: pass`). -/
def closeLoop (excl : List Int) (l : List Int) (acc : FdTable) : Except PyErr FdTable :=
  match l with
  | [] => .ok acc
  | d :: rest =>
      if d ∈ excl then closeLoop excl rest acc
      else
        match osClose acc d with
        | .ok acc2 => closeLoop excl rest acc2
        | .error _ => closeLoop excl rest acc

/-- `close_all_open_files`, translated from the source: enumerate the
process's open descriptors and run the closing loop over that snapshot. -/
def close_all_open_files (excl : List Int) (t : FdTable) : Except PyErr FdTable :=
  closeLoop excl t.openFds t

/-- The closing loop never propagates an exception. -/
theorem closeLoop_ok (excl : List Int) :
    ∀ (l : List Int) (acc : FdTable), ∃ t2, closeLoop excl l acc = Except.ok t2 := by
  intro l
  induction l with
  | nil => exact fun acc => ⟨acc, rfl⟩
  | cons d rest ih =>
      intro acc
      by_cases hd : d ∈ excl
      · simpa [closeLoop, hd] using ih acc
      · unfold closeLoop osClose
        by_cases hm : d ∈ acc.openFds
        · simpa [hd, hm] using ih ⟨acc.openFds.erase d⟩
        · simpa [hd, hm] using ih acc

/-- Descriptors in the exclusion list survive the closing loop. -/
theorem closeLoop_keeps_excluded (excl : List Int) (d : Int) (hd : d ∈ excl) :
    ∀ (l : List Int) (acc : FdTable) (t2 : FdTable),
      d ∈ acc.openFds → closeLoop excl l acc = Except.ok t2 → d ∈ t2.openFds := by
  intro l
  induction l with
  | nil =>
      intro acc t2 hmem h
      unfold closeLoop at h
      cases h
      exact hmem
  | cons x rest ih =>
      intro acc t2 hmem h
      unfold closeLoop at h
      by_cases hx : x ∈ excl
      · rw [if_pos hx] at h
        exact ih acc t2 hmem h
      · rw [if_neg hx] at h
        unfold osClose at h
        by_cases hxm : x ∈ acc.openFds
        · rw [if_pos hxm] at h
          have hne : d ≠ x := fun he => hx (he ▸ hd)
          exact ih ⟨acc.openFds.erase x⟩ t2 ((List.mem_erase_of_ne hne).2 hmem) h
        · rw [if_neg hxm] at h
          exact ih acc t2 hmem h

/-- Every descriptor outside the exclusion list whose multiplicity in the
table is bounded by its multiplicity in the remaining iteration list is
closed by the end of the loop. -/
theorem closeLoop_closes_rest (excl : List Int) (d : Int) (hd : d ∉ excl) :
    ∀ (l : List Int) (acc : FdTable) (t2 : FdTable),
      acc.openFds.count d ≤ l.count d →
      closeLoop excl l acc = Except.ok t2 → d ∉ t2.openFds := by
  intro l
  induction l with
  | nil =>
      intro acc t2 hcount h
      unfold closeLoop at h
      cases h
      intro hmem
      rw [List.count_nil] at hcount
      have := List.count_pos_iff.2 hmem
      omega
  | cons x rest ih =>
      intro acc t2 hcount h
      unfold closeLoop at h
      by_cases hx : x ∈ excl
      · rw [if_pos hx] at h
        have hne : d ≠ x := fun he => hd (he ▸ hx)
        rw [List.count_cons_of_ne hne] at hcount
        exact ih acc t2 hcount h
      · rw [if_neg hx] at h
        unfold osClose at h
        by_cases hxm : x ∈ acc.openFds
        · rw [if_pos hxm] at h
          refine ih ⟨acc.openFds.erase x⟩ t2 ?_ h
          by_cases hxd : x = d
          · subst hxd
            rw [List.count_erase_self]
            rw [List.count_cons_self] at hcount
            omega
          · rw [List.count_erase_of_ne (fun he => hxd he.symm)]
            rw [List.count_cons_of_ne (fun he => hxd he.symm)] at hcount
            exact hcount
        · rw [if_neg hxm] at h
          refine ih acc t2 ?_ h
          by_cases hxd : x = d
          · subst hxd
            have : acc.openFds.count x = 0 := List.count_eq_zero.2 hxm
            omega
          · rw [List.count_cons_of_ne (fun he => hxd he.symm)] at hcount
            exact hcount

/-- C4: `close_all_open_files(E)` never lets an individual close failure
propagate (it always returns), leaves every previously open descriptor in
`E` open and usable, and closes every other previously open descriptor, so
that attempts to use it fail. -/
theorem close_all_open_files_spec (excl : List Int) (t : FdTable) :
    ∃ t2, close_all_open_files excl t = Except.ok t2 ∧
      (∀ d, d ∈ excl → d ∈ t.openFds → osUseFd t2 d = Except.ok ()) ∧
      (∀ d, d ∉ excl → osUseFd t2 d = Except.error (PyErr.osError "EBADF")) := by
  obtain ⟨t2, h⟩ := closeLoop_ok excl t.openFds t
  refine ⟨t2, h, ?_, ?_⟩
  · intro d hd hmem
    have := closeLoop_keeps_excluded excl d hd t.openFds t t2 hmem h
    simp [osUseFd, this]
  · intro d hd
    have := closeLoop_closes_rest excl d hd t.openFds t t2 le_rfl h
    simp [osUseFd, this]

/-- Witness for C4 at a concrete table: descriptors `{0, 2}` get closed,
the excluded descriptor `1` stays usable. -/
theorem close_all_open_files_spec_witness :
    osUseFd ⟨[(1 : Int)]⟩ 1 = Except.ok () ∧
    osUseFd ⟨[(1 : Int)]⟩ 0 = Except.error (PyErr.osError "EBADF") := by
  obtain ⟨t2, heq, hkeep, hclose⟩ := close_all_open_files_spec [1] ⟨[0, 1, 2]⟩
  have hval : close_all_open_files [1] (⟨[0, 1, 2]⟩ : FdTable) =
      Except.ok (⟨[(1 : Int)]⟩ : FdTable) := rfl
  rw [hval] at heq
  cases heq
  exact ⟨hkeep 1 (by decide) (by decide), hclose 0 (by decide)⟩

/-- Result of an operation that may call `sys.exit(code)` or raise. -/
inductive Outcome (α : Type) where
  | ok (a : α)
  | exited (code : Nat)
  | raised (e : PyErr)
deriving DecidableEq, Repr

/-- Python truthiness of an optional string: `None` and `''` are falsy. -/
def strOptTruthy : Option String → Bool
  | Option.none => false
  | some s => if s = "" then false else true

/-- The file at the configured pid path: absent, or present with its
contents and whether another live process holds the exclusive advisory
`flock` on its inode (a lock can only be held on an existing file; a
freshly created file is unlocked). -/
inductive PidFile where
  | absent
  | file (contents : String) (lockedByOther : Bool)
deriving DecidableEq, Repr

/-- The contents found at the pid path (`None` when no file exists). -/
def PidFile.contentsAt : PidFile → Option String
  | .absent => Option.none
  | .file c _ => some c

/-- Whether another live process holds the exclusive lock. -/
def PidFile.isLocked : PidFile → Bool
  | .absent => false
  | .file _ l => l

/-- Appending a write through an open handle positioned at end of file. -/
def PidFile.writeStr : PidFile → String → PidFile
  | .absent, _ => .absent
  | .file c l, s => .file (c ++ s) l

/-- `generate_lockfile`, translated from the source.  `openOk` says whether
`open(filename, 'w')` succeeds (an `IOError` there exits with status 1).
If the filename is falsy, no lock is taken.  Otherwise: capture the prior
contents if a file exists; open for writing (creating or truncating); try a
non-blocking exclusive `flock` — on failure, write the captured contents
back when they are truthy (non-empty) and exit with status 1; on success
return the open locked handle (`true`). -/
def generate_lockfile (openOk : Bool) (filename : Option String) (fs : PidFile) :
    Outcome Bool × PidFile :=
  if strOptTruthy filename then
    let contents := fs.contentsAt
    if openOk then
      let locked := fs.isLocked
      let fs1 := PidFile.file "" locked
      if locked then
        match contents with
        | some c => if c = "" then (.exited 1, fs1) else (.exited 1, PidFile.file c locked)
        | Option.none => (.exited 1, fs1)
      else (.ok true, fs1)
    else (.exited 1, fs)
  else (.ok false, fs)

/-- Lines 158–164 of `Daemon.start`: generate the lockfile, and if one was
returned, write `f'{os.getpid()}'` into it and flush; an `IOError` while
writing (`writeOk = false`) exits with status 1. -/
def acquireAndWritePid (openOk writeOk : Bool) (pid : Nat) (filename : Option String)
    (fs : PidFile) : Outcome Bool × PidFile :=
  match generate_lockfile openOk filename fs with
  | (.ok hasLock, fs2) =>
      if hasLock then
        if writeOk then (.ok true, fs2.writeStr (Nat.repr pid))
        else (.exited 1, fs2)
      else (.ok false, fs2)
  | (.exited c, fs2) => (.exited c, fs2)
  | (.raised e, fs2) => (.raised e, fs2)

/-- C1: when the pid path is configured and another live process holds the
exclusive lock there, a second acquire exits the process with the nonzero
status 1 and leaves the observable state of the pid path — its prior
contents, or its absence — intact byte-for-byte. -/
theorem generate_lockfile_held_preserves (openOk : Bool) (filename : Option String)
    (fs : PidFile) (h1 : strOptTruthy filename = true) (h2 : fs.isLocked = true) :
    (generate_lockfile openOk filename fs).1 = Outcome.exited 1 ∧
    (generate_lockfile openOk filename fs).2.contentsAt = fs.contentsAt := by
  cases fs with
  | absent => simp [PidFile.isLocked] at h2
  | file c l =>
      simp only [PidFile.isLocked] at h2
      subst h2
      cases openOk with
      | false => constructor <;> simp [generate_lockfile, h1]
      | true =>
          by_cases hc : c = ""
          · subst hc
            constructor <;> simp [generate_lockfile, h1, PidFile.contentsAt, PidFile.isLocked]
          · constructor <;>
              simp [generate_lockfile, h1, hc, PidFile.contentsAt, PidFile.isLocked]

/-- Witness for C1: a locked pid file containing `"42"` stays `"42"` and the
competitor exits with status 1. -/
theorem generate_lockfile_held_preserves_witness :
    (generate_lockfile true (some "/run/d.pid") (PidFile.file "42" true)).1 =
      Outcome.exited 1 ∧
    (generate_lockfile true (some "/run/d.pid") (PidFile.file "42" true)).2.contentsAt =
      some "42" :=
  generate_lockfile_held_preserves true (some "/run/d.pid") (PidFile.file "42" true)
    (by decide) rfl

/-- C2: with a configured pid path at which no file exists, acquiring the
lock and then writing the current process id leaves the file containing
exactly the decimal text of the process id and nothing else (and the file
is unlocked for any other process' non-blocking lock attempt). -/
theorem acquireAndWritePid_fresh (openOk writeOk : Bool) (pid : Nat)
    (filename : Option String) (h1 : strOptTruthy filename = true)
    (h2 : openOk = true) (h3 : writeOk = true) :
    acquireAndWritePid openOk writeOk pid filename PidFile.absent =
      (Outcome.ok true, PidFile.file (Nat.repr pid) false) := by
  subst h2; subst h3
  simp [acquireAndWritePid, generate_lockfile, h1, PidFile.contentsAt, PidFile.isLocked,
    PidFile.writeStr]

/-- Witness for C2 at a concrete pid: the file ends up holding `"4321"`. -/
theorem acquireAndWritePid_fresh_witness :
    acquireAndWritePid true true 4321 (some "/run/d.pid") PidFile.absent =
      (Outcome.ok true, PidFile.file "4321" false) :=
  acquireAndWritePid_fresh true true 4321 (some "/run/d.pid") (by decide) rfl rfl

/-- `prevent_core_dump`, translated from the source: query the `RLIMIT_CORE`
resource limit (`core` is the currently reported pair, read and discarded);
on an unsupported platform the query raises `ValueError` (the spec's
`LimitUnsupportedError`), which is logged and re-raised; otherwise both the
soft and the hard limit are set to zero. -/
def prevent_core_dump (supported : Bool) (core : Nat × Nat) : Except PyErr (Nat × Nat) :=
  if supported then
    let core_limit := (0, 0)
    .ok core_limit
  else .error .valueError

/-- C7: `prevent_core_dump` raises — and propagates — the limit-unsupported
error exactly when the platform cannot report the core-dump limit, and
otherwise sets both the soft and the hard core limit to zero. -/
theorem prevent_core_dump_spec (supported : Bool) (core : Nat × Nat) :
    (prevent_core_dump supported core = Except.error PyErr.valueError ↔ supported = false) ∧
    (supported = true → prevent_core_dump supported core = Except.ok (0, 0)) := by
  cases supported <;> simp [prevent_core_dump]

/-- Witness for C7 on both sides of the platform flag. -/
theorem prevent_core_dump_spec_witness :
    prevent_core_dump false (1024, 4096) = Except.error PyErr.valueError ∧
    prevent_core_dump true (1024, 4096) = Except.ok (0, 0) :=
  ⟨(prevent_core_dump_spec false (1024, 4096)).1.2 rfl,
    (prevent_core_dump_spec true (1024, 4096)).2 rfl⟩

/-- A group- or user-identity system call performed by
`change_process_owner`, in execution order. -/
inductive OwnerEffect where
  | initgroupsCall (username : String) (gid : Nat)
  | setgidCall (gid : Nat)
  | setuidCall (uid : Nat)
deriving DecidableEq, Repr

/-- Environment for `change_process_owner`: `pwName` is
`pwd.getpwuid(uid).pw_name` (`Option.none` models a `KeyError`), and the
flags say whether the corresponding system call succeeds. -/
structure OwnerEnv where
  pwName : Nat → Option String
  initgroupsOk : Bool
  setgidOk : Bool
  setuidOk : Bool

/-- `change_process_owner`, translated from the source: resolve the uid to a
username; a `KeyError` merely logs a warning and disables `initgroups`.
Then, inside one try block: set the group identity (via `os.initgroups` when
enabled, else `os.setgid`) and afterwards the user identity via `os.setuid`;
any failure there is wrapped into a `DaemonError`.  On success the list of
identity-setting calls is returned in execution order. -/
def change_process_owner (env : OwnerEnv) (uid gid : Nat) (initgroups : Bool) :
    Except PyErr (List OwnerEffect) :=
  match env.pwName uid with
  | some name =>
      if initgroups then
        if env.initgroupsOk then
          if env.setuidOk then .ok [.initgroupsCall name gid, .setuidCall uid]
          else .error (.daemonError "Unable to change process owner")
        else .error (.daemonError "Unable to change process owner")
      else
        if env.setgidOk then
          if env.setuidOk then .ok [.setgidCall gid, .setuidCall uid]
          else .error (.daemonError "Unable to change process owner")
        else .error (.daemonError "Unable to change process owner")
  | Option.none =>
      if env.setgidOk then
        if env.setuidOk then .ok [.setgidCall gid, .setuidCall uid]
        else .error (.daemonError "Unable to change process owner")
      else .error (.daemonError "Unable to change process owner")

/-- Whether a result is a raised `DaemonError` (the spec's
`EnvironmentError`). -/
def isDaemonErrorResult : Except PyErr (List OwnerEffect) → Bool
  | .error (.daemonError _) => true
  | _ => false

/-- C8: `change_process_owner` treats a failed uid-to-username lookup as
non-fatal, silently disabling supplementary groups and setting the group id
directly; whenever it succeeds, the group identity was set strictly before
the user identity; and a failure of either underlying identity-setting call
on the taken path raises an `EnvironmentError` (`DaemonError`). -/
theorem change_process_owner_spec (env : OwnerEnv) (uid gid : Nat) (initgroups : Bool) :
    (env.pwName uid = Option.none →
      change_process_owner env uid gid initgroups =
        change_process_owner env uid gid false ∧
      (env.setgidOk = true → env.setuidOk = true →
        change_process_owner env uid gid initgroups =
          Except.ok [OwnerEffect.setgidCall gid, OwnerEffect.setuidCall uid])) ∧
    (∀ tr, change_process_owner env uid gid initgroups = Except.ok tr →
      ∃ g, (g = OwnerEffect.setgidCall gid ∨
            ∃ name, g = OwnerEffect.initgroupsCall name gid) ∧
        tr = [g, OwnerEffect.setuidCall uid]) ∧
    (env.setuidOk = false →
      isDaemonErrorResult (change_process_owner env uid gid initgroups) = true) ∧
    (env.setgidOk = false → (initgroups = false ∨ env.pwName uid = Option.none) →
      isDaemonErrorResult (change_process_owner env uid gid initgroups) = true) ∧
    (env.initgroupsOk = false → initgroups = true →
      (∃ name, env.pwName uid = some name) →
      isDaemonErrorResult (change_process_owner env uid gid initgroups) = true) := by
  cases hn : env.pwName uid with
  | none =>
      cases hg : env.setgidOk <;> cases hu : env.setuidOk <;>
        simp [change_process_owner, isDaemonErrorResult, hn, hg, hu]
  | some name =>
      cases initgroups with
      | false =>
          cases hg : env.setgidOk <;> cases hu : env.setuidOk <;>
            simp [change_process_owner, isDaemonErrorResult, hn, hg, hu]
      | true =>
          cases hi : env.initgroupsOk <;> cases hu : env.setuidOk <;>
            simp [change_process_owner, isDaemonErrorResult, hn, hi, hu]

/-- Witness for C8: with a failing username lookup and succeeding identity
calls, the group id is set directly and before the user id. -/
theorem change_process_owner_spec_witness :
    change_process_owner ⟨fun _ => Option.none, true, true, true⟩ 1001 1001 true =
      Except.ok [OwnerEffect.setgidCall 1001, OwnerEffect.setuidCall 1001] :=
  ((change_process_owner_spec ⟨fun _ => Option.none, true, true, true⟩ 1001 1001 true).1
    rfl).2 rfl rfl

/-- Python truthiness of an optional integer: `None` and `0` are falsy. -/
def natOptTruthy : Option Nat → Bool
  | Option.none => false
  | some n => if n = 0 then false else true

/-- The `Daemon` object: the configuration captured by `Daemon.__init__`
plus the mutable `_is_daemon` lifecycle flag. -/
structure Daemon where
  pid_filename : Option String
  stdin : PyValue
  stdout : PyValue
  stderr : PyValue
  exclude_list : List PyValue
  workdir : Option String
  rootdir : Option String
  umask : Nat
  uid : Nat
  gid : Nat
  initgroups : Bool
  prevent_core : Bool
  detach_process : Bool
  is_daemon : Bool
deriving DecidableEq, Repr

/-- `Daemon.__init__`, translated from the source: the pid filename is made
absolute when truthy (else `None`); `uid` and `gid` fall back to the calling
process's `os.getuid()` / `os.getgid()` when the argument is falsy (`None`
or `0`); the lifecycle flag starts `False`.  `abspath` is `os.path.abspath`
and `osuid`/`osgid` are the caller's current ids. -/
def Daemon.init (abspath : String → String) (osuid osgid : Nat)
    (pid_filename : Option String) (stdin stdout stderr : PyValue)
    (exclude_list : List PyValue) (workdir rootdir : Option String) (umask : Nat)
    (uid gid : Option Nat) (initgroups prevent_core detach_process : Bool) : Daemon :=
  { pid_filename := if strOptTruthy pid_filename then pid_filename.map abspath else Option.none
  , stdin := stdin
  , stdout := stdout
  , stderr := stderr
  , exclude_list := exclude_list
  , workdir := workdir
  , rootdir := rootdir
  , umask := umask
  , uid := if natOptTruthy uid then uid.getD osuid else osuid
  , gid := if natOptTruthy gid then gid.getD osgid else osgid
  , initgroups := initgroups
  , prevent_core := prevent_core
  , detach_process := detach_process
  , is_daemon := false }

/-- C9: passing `0` explicitly as `uid` or `gid` to the constructor is
treated like not passing it at all — the constructor tests truthiness, so
the zero is replaced by the calling process's current uid/gid, and owner id
0 cannot be configured through these arguments. -/
theorem daemon_init_zero_owner_replaced (abspath : String → String) (osuid osgid : Nat)
    (pf : Option String) (i o e : PyValue) (ex : List PyValue)
    (wd rd : Option String) (um : Nat) (ig pc dp : Bool) :
    (Daemon.init abspath osuid osgid pf i o e ex wd rd um (some 0) (some 0) ig pc dp).uid
        = osuid ∧
    (Daemon.init abspath osuid osgid pf i o e ex wd rd um (some 0) (some 0) ig pc dp).gid
        = osgid ∧
    (Daemon.init abspath osuid osgid pf i o e ex wd rd um (some 0) (some 0) ig pc dp)
        = Daemon.init abspath osuid osgid pf i o e ex wd rd um Option.none Option.none
            ig pc dp := by
  refine ⟨?_, ?_, ?_⟩ <;> simp [Daemon.init, natOptTruthy]

/-- The OS-level state touched by `Daemon.start`. -/
structure OS where
  root : String
  cwd : String
  umask : Nat
  coreLimit : Nat × Nat
  fds : FdTable
  pidfile : PidFile
  cache : CacheState
deriving DecidableEq, Repr

/-- Observable OS side effects performed during `Daemon.start`. -/
inductive Effect where
  | chrootE (p : String)
  | chdirE (p : String)
  | umaskE (m : Nat)
  | ownerE (tr : List OwnerEffect)
  | rlimitCoreZero
  | forkDetach
  | closeFilesE (excl : List Int)
  | lockfileE (filename : Option String)
  | writePidE (pid : Nat)
  | redirectE (std : Nat)
  | atexitE
  | signalE
deriving DecidableEq, Repr

/-- The environment of one `Daemon.start` run: which system calls succeed,
the parent pid, and the current process id. -/
structure StartEnv where
  chrootOk : Bool
  chdirOk : Bool
  umaskOk : Bool
  owner : OwnerEnv
  rlimitCoreSupported : Bool
  ppid : Nat
  forkOk : Bool
  lockOpenOk : Bool
  pidWriteOk : Bool
  openEnv : OpenEnv
  pid : Nat

/-- `change_root_directory`: `os.chroot(path)`, any failure wrapped in a
`DaemonError`. -/
def change_root_directory (ok : Bool) (path : String) (os : OS) : Except PyErr OS :=
  if ok then .ok { os with root := path }
  else .error (.daemonError ("Unable to change root directory to " ++ path))

/-- `change_working_directory`: `os.chdir(workdir)`, any failure wrapped in
a `DaemonError`. -/
def change_working_directory (ok : Bool) (path : String) (os : OS) : Except PyErr OS :=
  if ok then .ok { os with cwd := path }
  else .error (.daemonError ("Unable to change working directory to " ++ path))

/-- `change_file_creation`: `os.umask(umask)`, any failure wrapped in a
`DaemonError`. -/
def change_file_creation (ok : Bool) (m : Nat) (os : OS) : Except PyErr OS :=
  if ok then .ok { os with umask := m }
  else .error (.daemonError "Unable to change file creation mask")

/-- `is_started_by_init`: true exactly when the parent process id is 1. -/
def is_started_by_init (ppid : Nat) : Bool :=
  if ppid = 1 then true else false

/-- `detach`, as observed by the surviving grandchild: the double-fork and
`setsid` sequence either completes or a failing fork raises `OSError`. -/
def detach (forkOk : Bool) : Except PyErr Unit :=
  if forkOk then .ok () else .error (.osError "Error in first fork")

/-- `Daemon._generate_exclude_file_descriptors`: resolve every item of the
exclude list plus the three standard stream slots, skipping `None` entries
and unresolvable items, and collect the resulting descriptors as a set. -/
def Daemon.generate_exclude_file_descriptors (d : Daemon) : Except PyErr (List Int) :=
  let exclude_list := d.exclude_list ++ [d.stdin, d.stdout, d.stderr]
  exclude_list.foldlM
    (fun acc item =>
      match item with
      | PyValue.none => Except.ok acc
      | _ =>
          match get_file_descriptor item with
          | .ok (some fd) => Except.ok (if fd ∈ acc then acc else acc ++ [fd])
          | .ok Option.none => Except.ok acc
          | .error e => Except.error e)
    []

/-- The sequencing monad of `Daemon.start`: OS state plus an effect trace,
with early exit on `sys.exit` or an uncaught exception. -/
def StartM (α : Type) : Type :=
  OS → List Effect → Outcome (α × OS) × List Effect

instance : Monad StartM where
  pure a := fun os tr => (.ok (a, os), tr)
  bind x f := fun os tr =>
    match x os tr with
    | (.ok (a, os2), tr2) => f a os2 tr2
    | (.exited c, tr2) => (.exited c, tr2)
    | (.raised e, tr2) => (.raised e, tr2)

/-- Run an exception-throwing call, recording its effects on success. -/
def liftExc {α : Type} (x : Except PyErr α) (eff : List Effect) : StartM α :=
  fun os tr =>
    match x with
    | .ok a => (.ok (a, os), tr ++ eff)
    | .error e => (.raised e, tr)

/-- Run a call that may also `sys.exit`, recording its effects on success. -/
def liftOutcome {α : Type} (x : Outcome α) (eff : List Effect) : StartM α :=
  fun os tr =>
    match x with
    | .ok a => (.ok (a, os), tr ++ eff)
    | .exited c => (.exited c, tr)
    | .raised e => (.raised e, tr)

/-- Record effects. -/
def emit (eff : List Effect) : StartM Unit := fun os tr => (.ok ((), os), tr ++ eff)

/-- Read the OS state. -/
def getOS : StartM OS := fun os tr => (.ok (os, os), tr)

/-- Replace the OS state. -/
def setOS (os2 : OS) : StartM Unit := fun _ tr => (.ok ((), os2), tr)

/-- The body of `Daemon.start` past the lifecycle guard, step for step in
source order: chroot and chdir when configured, umask, owner change, core
dump suppression when configured, detach unless run under init or disabled,
descriptor-exclusion computation and closing of all other descriptors, lock
file generation plus pid write, stream conversion and redirection of the
three standard streams, handler registration, and finally the lifecycle
flag flip. -/
def Daemon.startBody (env : StartEnv) (d : Daemon) : StartM Daemon := do
  if strOptTruthy d.rootdir then
    let p := d.rootdir.getD ""
    let os ← getOS
    let os2 ← liftExc (change_root_directory env.chrootOk p os) [Effect.chrootE p]
    setOS os2
  if strOptTruthy d.workdir then
    let p := d.workdir.getD ""
    let os ← getOS
    let os2 ← liftExc (change_working_directory env.chdirOk p os) [Effect.chdirE p]
    setOS os2
  let os ← getOS
  let os2 ← liftExc (change_file_creation env.umaskOk d.umask os) [Effect.umaskE d.umask]
  setOS os2
  let otr ← liftExc (change_process_owner env.owner d.uid d.gid d.initgroups) []
  emit [Effect.ownerE otr]
  if d.prevent_core then
    let os3 ← getOS
    let newCore ← liftExc (prevent_core_dump env.rlimitCoreSupported os3.coreLimit)
      [Effect.rlimitCoreZero]
    setOS { os3 with coreLimit := newCore }
  if d.detach_process && !(is_started_by_init env.ppid) then
    let _ ← liftExc (detach env.forkOk) [Effect.forkDetach]
    pure ()
  let excl ← liftExc d.generate_exclude_file_descriptors []
  let os4 ← getOS
  let fds2 ← liftExc (close_all_open_files excl os4.fds) [Effect.closeFilesE excl]
  setOS { os4 with fds := fds2 }
  let os5 ← getOS
  let lockr := acquireAndWritePid env.lockOpenOk env.pidWriteOk env.pid d.pid_filename
    os5.pidfile
  let hasLock ← liftOutcome lockr.1 [Effect.lockfileE d.pid_filename]
  setOS { os5 with pidfile := lockr.2 }
  if hasLock then
    emit [Effect.writePidE env.pid]
  let os6 ← getOS
  let r1 := convert_fileobj env.openEnv d.stdin "r" os6.cache
  let _ ← liftExc r1.1 []
  let os7 := { os6 with cache := r1.2 }
  let r2 := convert_fileobj env.openEnv d.stdout "a+" os7.cache
  let _ ← liftExc r2.1 []
  let os8 := { os7 with cache := r2.2 }
  let r3 := convert_fileobj env.openEnv d.stderr "a+" os8.cache
  let _ ← liftExc r3.1 []
  setOS { os8 with cache := r3.2 }
  emit [Effect.redirectE 0, Effect.redirectE 1, Effect.redirectE 2]
  emit [Effect.atexitE, Effect.signalE]
  pure { d with is_daemon := true }

/-- `Daemon.start`: no-op when the lifecycle flag is already set, otherwise
runs the full daemonization sequence on the given OS state. -/
def Daemon.start (env : StartEnv) (d : Daemon) (os0 : OS) :
    Outcome (Daemon × OS) × List Effect :=
  if d.is_daemon then (.ok (d, os0), [])
  else d.startBody env os0 []

/-- C3: a `start()` on an already-active controller returns immediately: no
effect whatsoever is traced (no fork, no lock attempt, no descriptor
closing, no stream redirection), the OS state is untouched and the
controller state is returned unchanged. -/
theorem daemon_start_active_noop (env : StartEnv) (d : Daemon) (os0 : OS)
    (h : d.is_daemon = true) :
    Daemon.start env d os0 = (Outcome.ok (d, os0), []) := by
  simp [Daemon.start, h]

/-- A concrete already-active controller and environment for the C3
witness. -/
def activeDaemon : Daemon :=
  ⟨some "/run/d.pid", PyValue.none, PyValue.none, PyValue.none, [], some "/",
    Option.none, 23, 1000, 1000, false, true, true, true⟩

/-- A concrete all-succeeding environment. -/
def envBenign : StartEnv :=
  ⟨true, true, true, ⟨fun _ => some "svc", true, true, true⟩, true, 2, true, true, true,
    ⟨fun _ _ => Option.none⟩, 77⟩

/-- A concrete initial OS state. -/
def os0Concrete : OS :=
  ⟨"/", "/home", 18, (1024, 4096), ⟨[0, 1, 2, 5]⟩, PidFile.absent, CacheState.init⟩

/-- Witness for C3: the concrete active controller is returned unchanged
with an empty effect trace. -/
theorem daemon_start_active_noop_witness :
    Daemon.start envBenign activeDaemon os0Concrete =
      (Outcome.ok (activeDaemon, os0Concrete), []) :=
  daemon_start_active_noop envBenign activeDaemon os0Concrete rfl

/-- Sanity check that the guard is what makes C3 hold: the same controller
with the flag clear does perform OS side effects (a nonempty trace). -/
theorem daemon_start_inactive_has_effects :
    (Daemon.start envBenign { activeDaemon with is_daemon := false } os0Concrete).2 ≠
      [] := by decide
